import Mathlib

/-!
Shallow embedding of `airflow/providers/google/cloud/operators/dataproc.py`
(provider package for Google Cloud Dataproc), together with theorems about the
behaviour of its duration parsing, cluster-config generation, cluster
create-or-adopt control flow, polling loops and job submission.

Conventions of the embedding:
* Python `Optional` values become `Option`; Python truthiness of the various
  optional types is modelled by explicit `pyTruthy…` helpers.
* The remote control plane (`DataprocHook`) is modelled by an environment that
  lists, in order, the results of the successive `create_cluster` and
  `get_cluster` calls; every RPC, sleep and XCom push is recorded in a trace.
* Machine integers/floats are modelled by `Nat`/`Int` (timeouts are whole
  seconds in every claim considered).
-/

set_option autoImplicit false

/-! ## Duration parsing -/

/-- Value of a decimal digit string (model of Python `int` applied to the digit
group captured by the regex). -/
def digitsToNat (ds : List Char) : Nat :=
  ds.foldl (fun a c => a * 10 + (c.toNat - 48)) 0

/-- Model of `re.match` against a pattern of the shape `^(\d+)([u1u2...])$`:
succeeds exactly when the string is one or more ASCII digits followed by a
single character from `units`, returning the value of the digit group and the
unit character. -/
def matchNumUnit (units : List Char) (s : String) : Option (Nat × Char) :=
  match s.data.getLast? with
  | none => none
  | some u =>
    let ds := s.data.dropLast
    if ds ≠ [] ∧ ds.all Char.isDigit ∧ u ∈ units then some (digitsToNat ds, u)
    else none

/-- The error raised by both duration-parsing call sites
(`AirflowException` in the source, `DurationFormatError` in the spec). -/
inductive DurationError where
  | format
deriving DecidableEq, Repr

/-- `ClusterGenerator._get_init_action_timeout`: pattern `^(\d+)([sm])$`;
`s` gives the value in seconds, `m` multiplies by 60
(`timedelta(minutes=val).total_seconds()`); anything else raises. -/
def get_init_action_timeout (init_action_timeout : String) : Except DurationError Nat :=
  match matchNumUnit ['s', 'm'] init_action_timeout with
  | some (n, u) =>
    if u = 's' then .ok n
    else if u = 'm' then .ok (60 * n)
    else .error .format
  | none => .error .format

/-- `DataprocScaleClusterOperator._graceful_decommission_timeout_object`:
`None`/empty (falsy) input yields `None`; otherwise pattern `^(\d+)([smdh])$`
converts to seconds, and a missing match or a zero result
(`if not timeout`) raises. -/
def graceful_decommission_timeout_object :
    Option String → Except DurationError (Option Nat)
  | none => .ok none
  | some s =>
    if s = "" then .ok none
    else
      let timeout : Option Nat :=
        match matchNumUnit ['s', 'm', 'd', 'h'] s with
        | some (n, u) =>
          if u = 's' then some n
          else if u = 'm' then some (60 * n)
          else if u = 'h' then some (3600 * n)
          else if u = 'd' then some (86400 * n)
          else none
        | none => none
      match timeout with
      | some t => if t = 0 then .error .format else .ok (some t)
      | none => .error .format

/-! ## ClusterGenerator -/

/-- Python truthiness of an `Optional[str]`. -/
def pyTruthyStr : Option String → Bool
  | none => false
  | some s => !s.isEmpty

/-- Python truthiness of an `Optional[int]`. -/
def pyTruthyInt : Option Int → Bool
  | none => false
  | some n => n != 0

/-- Python truthiness of an `Optional[bool]`. -/
def pyTruthyBool : Option Bool → Bool
  | none => false
  | some b => b

/-- Python truthiness of an `Optional[List[str]]`. -/
def pyTruthyList : Option (List String) → Bool
  | none => false
  | some l => !l.isEmpty

/-- The keyword parameters of `ClusterGenerator.__init__` that the modelled
methods read.  `auto_delete_time` is an `Optional[datetime]`, modelled as an
epoch second count (a `datetime` object is always truthy). -/
structure GenParams where
  project_id : String := "project"
  num_workers : Option Int := none
  zone : Option String := none
  subnetwork_uri : Option String := none
  internal_ip_only : Option Bool := none
  init_actions_uris : Option (List String) := none
  init_action_timeout : String := "10m"
  custom_image : Option String := none
  custom_image_project_id : Option String := none
  custom_image_family : Option String := none
  image_version : Option String := none
  num_masters : Int := 1
  master_machine_type : String := "n1-standard-4"
  worker_machine_type : String := "n1-standard-4"
  num_preemptible_workers : Int := 0
  idle_delete_ttl : Option Int := none
  auto_delete_time : Option Nat := none
  auto_delete_ttl : Option Int := none
deriving DecidableEq, Repr

/-- `self.single_node = num_workers == 0` (Python `None == 0` is `False`). -/
def singleNode (p : GenParams) : Bool :=
  p.num_workers == some 0

/-- The `ValueError`s raised by `ClusterGenerator.__init__`
(`ConfigError` in the spec's taxonomy). -/
inductive InitError where
  | customImageAndImageVersion
  | imageVersionAndCustomImageFamily
  | customImageAndCustomImageFamily
  | singleNodePreemptible
deriving DecidableEq, Repr

/-- The validation performed by `ClusterGenerator.__init__` after storing the
fields, in source order. -/
def clusterGeneratorInit (p : GenParams) : Except InitError GenParams :=
  if pyTruthyStr p.custom_image && pyTruthyStr p.image_version then
    .error .customImageAndImageVersion
  else if pyTruthyStr p.custom_image_family && pyTruthyStr p.image_version then
    .error .imageVersionAndCustomImageFamily
  else if pyTruthyStr p.custom_image_family && pyTruthyStr p.custom_image then
    .error .customImageAndCustomImageFamily
  else if singleNode p && p.num_preemptible_workers > 0 then
    .error .singleNodePreemptible
  else .ok p

/-- `Except` success as a `Bool`. -/
def exceptOk {ε α : Type} : Except ε α → Bool
  | .ok _ => true
  | .error _ => false

instance {ε α : Type} [DecidableEq ε] [DecidableEq α] : DecidableEq (Except ε α) := fun x y =>
  match x, y with
  | .ok a, .ok b =>
    if h : a = b then isTrue (by rw [h]) else isFalse (fun hh => h (Except.ok.inj hh))
  | .error e, .error f =>
    if h : e = f then isTrue (by rw [h]) else isFalse (fun hh => h (Except.error.inj hh))
  | .ok _, .error _ => isFalse (fun hh => Except.noConfusion hh)
  | .error _, .ok _ => isFalse (fun hh => Except.noConfusion hh)

/-- The `lifecycle_config` section built by
`ClusterGenerator._build_lifecycle_config`: `idle_delete_ttl` when truthy;
`auto_delete_time` when present, `elif` the truthy `auto_delete_ttl`. -/
structure LifecycleConfig where
  idle_delete_ttl : Option Int := none
  auto_delete_time : Option Nat := none
  auto_delete_ttl : Option Int := none
deriving DecidableEq, Repr

/-- `ClusterGenerator._build_lifecycle_config`. -/
def build_lifecycle_config (p : GenParams) : LifecycleConfig :=
  { idle_delete_ttl := if pyTruthyInt p.idle_delete_ttl then p.idle_delete_ttl else none
    auto_delete_time := p.auto_delete_time
    auto_delete_ttl :=
      if p.auto_delete_time.isSome then none
      else if pyTruthyInt p.auto_delete_ttl then p.auto_delete_ttl else none }

/-- The `AirflowException`s that `ClusterGenerator._build_cluster_data` can
raise, in source order: the `internal_ip_only` check inside
`_build_gce_cluster_config`, then the init-action timeout parse. -/
inductive BuildError where
  | internalIpWithoutSubnetwork
  | initActionTimeoutFormat
deriving DecidableEq, Repr

/-- The parts of the dict built by `ClusterGenerator._build_cluster_data` that
the claims under study mention. -/
structure ClusterData where
  master_machine_type_uri : String
  worker_machine_type_uri : String
  master_image_uri : Option String := none
  worker_image_uri : Option String := none
  software_image_version : Option String := none
  gce_internal_ip_only : Bool := false
  gce_subnetwork_uri : Option String := none
  allow_zero_workers_property : Bool := false
  lifecycle_config : LifecycleConfig := {}
  initialization_actions : Option (List (String × Nat)) := none
deriving DecidableEq, Repr

/-- Zone-qualified machine-type URI (`_build_cluster_data`, `if self.zone`). -/
def machineTypeUri (p : GenParams) (machine_type : String) : String :=
  if pyTruthyStr p.zone then
    "projects/" ++ p.project_id ++ "/zones/" ++ p.zone.getD "" ++
      "/machineTypes/" ++ machine_type
  else machine_type

/-- Custom-image URL (`_build_cluster_data`). -/
def customImageUrl (p : GenParams) (family : Bool) (image : String) : String :=
  let proj := if pyTruthyStr p.custom_image_project_id
    then p.custom_image_project_id.getD "" else p.project_id
  "https://www.googleapis.com/compute/beta/projects/" ++ proj ++
    (if family then "/global/images/family/" else "/global/images/") ++ image

/-- `ClusterGenerator._build_cluster_data` (the claim-relevant fields): image
branch, `_build_gce_cluster_config` (whose `internal_ip_only` check raises
first), zero-worker property, `_build_lifecycle_config`, then the
initialization actions whose timeouts are parsed only here. -/
def build_cluster_data (p : GenParams) : Except BuildError ClusterData :=
  if pyTruthyBool p.internal_ip_only && !pyTruthyStr p.subnetwork_uri then
    .error .internalIpWithoutSubnetwork
  else
    let base : ClusterData :=
      { master_machine_type_uri := machineTypeUri p p.master_machine_type
        worker_machine_type_uri := machineTypeUri p p.worker_machine_type
        software_image_version :=
          if pyTruthyStr p.image_version then p.image_version else none
        master_image_uri :=
          if pyTruthyStr p.image_version then none
          else if pyTruthyStr p.custom_image then
            some (customImageUrl p false (p.custom_image.getD ""))
          else if pyTruthyStr p.custom_image_family then
            some (customImageUrl p true (p.custom_image_family.getD ""))
          else none
        worker_image_uri :=
          if pyTruthyStr p.image_version then none
          else if pyTruthyStr p.custom_image then
            (if singleNode p then none
             else some (customImageUrl p false (p.custom_image.getD "")))
          else if pyTruthyStr p.custom_image_family then
            (if singleNode p then none
             else some (customImageUrl p true (p.custom_image_family.getD "")))
          else none
        gce_internal_ip_only := pyTruthyBool p.internal_ip_only
        gce_subnetwork_uri :=
          if pyTruthyStr p.subnetwork_uri then p.subnetwork_uri else none
        allow_zero_workers_property := singleNode p
        lifecycle_config := build_lifecycle_config p }
    if pyTruthyList p.init_actions_uris then
      match get_init_action_timeout p.init_action_timeout with
      | .error _ => .error .initActionTimeoutFormat
      | .ok t =>
        .ok { base with
              initialization_actions :=
                some ((p.init_actions_uris.getD []).map fun uri => (uri, t)) }
    else .ok base

/-! ## DataprocCreateClusterOperator: environment, trace and control flow -/

/-- `RemoteResourceState` for clusters. -/
inductive ClusterState where
  | UNKNOWN | CREATING | RUNNING | ERROR | UPDATING | DELETING | STOPPING | STOPPED
deriving DecidableEq, Repr

/-- A cluster as reported by the remote side (only the fields the operator
reads; `ident` distinguishes distinct remote responses). -/
structure Cluster where
  ident : Nat := 0
  state : ClusterState
deriving DecidableEq, Repr

/-- Result of one `hook.get_cluster` call: `none` models a raised `NotFound`.
`latency` is the wall-clock cost of the RPC, which the source never reads. -/
structure GetRes where
  latency : Nat := 0
  res : Option Cluster
deriving DecidableEq, Repr

/-- Result of one `hook.create_cluster(...).result()` call. -/
inductive CreateRes where
  | ok (c : Cluster)
  | alreadyExists
deriving DecidableEq, Repr

/-- The remote environment: the results of the successive create and get
calls, consumed in order. -/
structure St where
  creates : List CreateRes
  gets : List GetRes
deriving DecidableEq, Repr

/-- Observable events of one `execute` invocation, in order. -/
inductive Event where
  | xcom (cluster_name region project_id : String)
  | createRPC
  | getRPC
  | diagnoseRPC
  | deleteRPC
  | sleep (seconds : Nat)
deriving DecidableEq, Repr

/-- Is this event the correlation-record push? -/
def Event.isXcom : Event → Bool
  | .xcom _ _ _ => true
  | _ => false

/-- Exceptions `execute` can surface (plus `envExhausted`, raised when the
modelled environment has no answer left for an RPC). -/
inductive ExecErr where
  | alreadyExists
  | clusterCreateError
  | pollTimeout
  | notFound
  | envExhausted
deriving DecidableEq, Repr

/-- The constructor arguments of `DataprocCreateClusterOperator` the modelled
methods read (`timeout` defaults to one hour). -/
structure CreateOp where
  cluster_name : String := "cluster"
  region : String := "region"
  project_id : String := "project"
  timeout : Int := 3600
  delete_on_error : Bool := true
  use_if_exists : Bool := true
deriving DecidableEq, Repr

/-- `google.api_core.retry.exponential_sleep_generator(initial=10, maximum=120)`:
the `k`-th yielded interval. -/
def backoff (k : Nat) : Nat :=
  min (10 * 2 ^ k) 120

/-- Seconds slept in one event. -/
def eventSleep : Event → Nat
  | .sleep n => n
  | _ => 0

/-- Total accounted sleep time of a trace. -/
def sleepSum (tr : List Event) : Nat :=
  (tr.map eventSleep).sum

/-- `DataprocCreateClusterOperator._create_cluster` against the environment. -/
def create_cluster (st : St) : List Event × St × Except ExecErr Cluster :=
  match st.creates with
  | [] => ([.createRPC], { st with creates := [] }, .error .envExhausted)
  | .alreadyExists :: rest => ([.createRPC], { st with creates := rest }, .error .alreadyExists)
  | .ok c :: rest => ([.createRPC], { st with creates := rest }, .ok c)

/-- `DataprocCreateClusterOperator._get_cluster` against the environment. -/
def get_cluster (st : St) : List Event × St × Except ExecErr Cluster :=
  match st.gets with
  | [] => ([.getRPC], { st with gets := [] }, .error .envExhausted)
  | g :: rest =>
    match g.res with
    | none => ([.getRPC], { st with gets := rest }, .error .notFound)
    | some c => ([.getRPC], { st with gets := rest }, .ok c)

/-- `DataprocCreateClusterOperator._handle_error_state`: nothing unless the
cluster is in ERROR; otherwise diagnose, then delete when `delete_on_error`,
and raise in either case. -/
def handle_error_state (op : CreateOp) (c : Cluster) (st : St) :
    List Event × St × Except ExecErr Unit :=
  if c.state = .ERROR then
    if op.delete_on_error then
      ([.diagnoseRPC, .deleteRPC], st, .error .clusterCreateError)
    else
      ([.diagnoseRPC], st, .error .clusterCreateError)
  else ([], st, .ok ())

/-- The loop of `_wait_for_cluster_in_deleting_state`, at remaining budget `t`
and backoff index `k`: raise when the budget is already negative, otherwise
sleep, decrement by the slept interval, fetch, and stop as soon as the fetch
raises NotFound. -/
def wait_deleting_loop : Int → Nat → List GetRes →
    List Event × List GetRes × Except ExecErr Unit
  | t, _, [] =>
    if t < 0 then ([], [], .error .pollTimeout)
    else ([.sleep (backoff 0), .getRPC], [], .error .envExhausted)
  | t, k, g :: rest =>
    if t < 0 then ([], g :: rest, .error .pollTimeout)
    else
      match g.res with
      | none => ([.sleep (backoff k), .getRPC], rest, .ok ())
      | some _ =>
        let r := wait_deleting_loop (t - backoff k) (k + 1) rest
        (.sleep (backoff k) :: .getRPC :: r.1, r.2.1, r.2.2)

/-- The loop of `_wait_for_cluster_in_creating_state`, carrying the most
recently fetched cluster: done as soon as the state is not CREATING, raise
when the budget is already negative, otherwise sleep, decrement and re-fetch
(a NotFound here propagates). -/
def wait_creating_loop : Cluster → Int → Nat → List GetRes →
    List Event × List GetRes × Except ExecErr Cluster
  | c, t, _, [] =>
    if c.state ≠ .CREATING then ([], [], .ok c)
    else if t < 0 then ([], [], .error .pollTimeout)
    else ([.sleep (backoff 0), .getRPC], [], .error .envExhausted)
  | c, t, k, g :: rest =>
    if c.state ≠ .CREATING then ([], g :: rest, .ok c)
    else if t < 0 then ([], g :: rest, .error .pollTimeout)
    else
      match g.res with
      | none => ([.sleep (backoff k), .getRPC], rest, .error .notFound)
      | some c' =>
        let r := wait_creating_loop c' (t - backoff k) (k + 1) rest
        (.sleep (backoff k) :: .getRPC :: r.1, r.2.1, r.2.2)

/-- `DataprocCreateClusterOperator._wait_for_cluster_in_deleting_state`:
run the loop with `time_left = self.timeout` from the first backoff value. -/
def wait_for_cluster_in_deleting_state (op : CreateOp) (st : St) :
    List Event × St × Except ExecErr Unit :=
  let r := wait_deleting_loop op.timeout 0 st.gets
  (r.1, { st with gets := r.2.1 }, r.2.2)

/-- `DataprocCreateClusterOperator._wait_for_cluster_in_creating_state`:
one initial fetch, then the loop with `time_left = self.timeout`. -/
def wait_for_cluster_in_creating_state (op : CreateOp) (st : St) :
    List Event × St × Except ExecErr Cluster :=
  match get_cluster st with
  | (tr, st1, .error e) => (tr, st1, .error e)
  | (tr, st1, .ok c) =>
    let r := wait_creating_loop c op.timeout 0 st1.gets
    (tr ++ r.1, { st1 with gets := r.2.1 }, r.2.2)

/-- The tail of `DataprocCreateClusterOperator.execute` after a cluster has
been created or adopted: `_handle_error_state`, then the CREATING branch
(wait, re-check ERROR) or the DELETING branch (wait until absent, create anew,
check ERROR), otherwise return the cluster as is. -/
def after_cluster (op : CreateOp) (c : Cluster) (st : St) :
    List Event × St × Except ExecErr Cluster :=
  match handle_error_state op c st with
  | (tr0, st0, .error e) => (tr0, st0, .error e)
  | (tr0, st0, .ok ()) =>
    if c.state = .CREATING then
      match wait_for_cluster_in_creating_state op st0 with
      | (tr1, st1, .error e) => (tr0 ++ tr1, st1, .error e)
      | (tr1, st1, .ok c1) =>
        match handle_error_state op c1 st1 with
        | (tr2, st2, .error e) => (tr0 ++ tr1 ++ tr2, st2, .error e)
        | (tr2, st2, .ok ()) => (tr0 ++ tr1 ++ tr2, st2, .ok c1)
    else if c.state = .DELETING then
      match wait_for_cluster_in_deleting_state op st0 with
      | (tr1, st1, .error e) => (tr0 ++ tr1, st1, .error e)
      | (tr1, st1, .ok ()) =>
        match create_cluster st1 with
        | (tr2, st2, .error e) => (tr0 ++ tr1 ++ tr2, st2, .error e)
        | (tr2, st2, .ok c2) =>
          match handle_error_state op c2 st2 with
          | (tr3, st3, .error e) => (tr0 ++ tr1 ++ tr2 ++ tr3, st3, .error e)
          | (tr3, st3, .ok ()) => (tr0 ++ tr1 ++ tr2 ++ tr3, st3, .ok c2)
    else (tr0, st0, .ok c)

/-- The body of `execute` after the XCom push: try to create, on
`AlreadyExists` re-raise unless `use_if_exists`, in which case adopt the
fetched cluster; then `after_cluster`. -/
def executeBody (op : CreateOp) (st : St) : List Event × St × Except ExecErr Cluster :=
  match create_cluster st with
  | (tr, st1, .ok c) =>
    let r := after_cluster op c st1
    (tr ++ r.1, r.2.1, r.2.2)
  | (tr, st1, .error .alreadyExists) =>
    if op.use_if_exists then
      match get_cluster st1 with
      | (trg, st2, .ok c) =>
        let r := after_cluster op c st2
        (tr ++ trg ++ r.1, r.2.1, r.2.2)
      | (trg, st2, .error e) => (tr ++ trg, st2, .error e)
    else (tr, st1, .error .alreadyExists)
  | (tr, st1, .error e) => (tr, st1, .error e)

/-- `DataprocCreateClusterOperator.execute`: push the correlation record
first, then run the create-or-adopt body. -/
def execute (op : CreateOp) (st : St) : List Event × St × Except ExecErr Cluster :=
  let r := executeBody op st
  (Event.xcom op.cluster_name op.region op.project_id :: r.1, r.2.1, r.2.2)

/-! ## DataprocJobBaseOperator: synchronous job submission -/

/-- `RemoteResourceState` for jobs. -/
inductive JobState where
  | PENDING | RUNNING | CANCEL_PENDING | CANCELLED | DONE | ERROR | ATTEMPT_FAILURE
deriving DecidableEq, Repr

/-- Terminal job states (DONE, ERROR, CANCELLED). -/
def isTerminalJobState : JobState → Bool
  | .DONE => true
  | .ERROR => true
  | .CANCELLED => true
  | _ => false

/-- Errors of the job-submission verb. -/
inductive JobError where
  | jobExecution
  | noTerminalObserved
  | noTemplate
deriving DecidableEq, Repr

/-- Modelled from the spec: `DataprocHook.wait_for_job` is not part of the
sources under study (only its caller `DataprocJobBaseOperator.execute` is).
Per the spec it blocks by "synchronous polling of job state against
`job_error_states`" until a terminal state and "raises `JobExecutionError` if
terminal state ∈ error-states".  `polled` is the sequence of job states
observed while polling. -/
def wait_for_job (job_error_states : List JobState) (polled : List JobState) :
    Except JobError Unit :=
  match polled.find? isTerminalJobState with
  | none => .error .noTerminalObserved
  | some t => if t ∈ job_error_states then .error .jobExecution else .ok ()

/-- The constructor arguments of `DataprocJobBaseOperator` the modelled
`execute` reads; `hasTemplate` records whether `create_job_template` ran, and
`jobId` is the job id captured at submission. -/
structure JobOp where
  job_error_states : Option (List JobState) := none
  asynchronous : Bool := false
  hasTemplate : Bool := true
  jobId : String := "job_abc12345"
deriving DecidableEq, Repr

/-- `self.job_error_states = job_error_states if job_error_states is not None
else {'ERROR'}`. -/
def effectiveJobErrorStates (arg : Option (List JobState)) : List JobState :=
  arg.getD [.ERROR]

/-- `DataprocJobBaseOperator.execute`: requires a job template, submits and
captures the job id, and unless `asynchronous` blocks on the polling wait
before returning the job id. -/
def jobBaseExecute (op : JobOp) (polled : List JobState) : Except JobError String :=
  if op.hasTemplate then
    if op.asynchronous then .ok op.jobId
    else
      match wait_for_job (effectiveJobErrorStates op.job_error_states) polled with
      | .error e => .error e
      | .ok _ => .ok op.jobId
  else .error .noTemplate

/-! ## Basic lemmas -/

@[simp] lemma sleepSum_nil : sleepSum [] = 0 := rfl

@[simp] lemma sleepSum_cons (e : Event) (tr : List Event) :
    sleepSum (e :: tr) = eventSleep e + sleepSum tr := by
  simp [sleepSum]

lemma matchNumUnit_unit_mem {units : List Char} {s : String} {n : Nat} {u : Char}
    (h : matchNumUnit units s = some (n, u)) : u ∈ units := by
  unfold matchNumUnit at h
  rcases hl : s.data.getLast? with _ | u'
  · rw [hl] at h; exact absurd h (by simp)
  · rw [hl] at h
    dsimp only at h
    split_ifs at h with hc
    · obtain ⟨-, -, hmem⟩ := hc
      simp only [Option.some.injEq, Prod.mk.injEq] at h
      obtain ⟨-, rfl⟩ := h
      exact hmem

lemma matchNumUnit_ne_empty {units : List Char} {s : String} {n : Nat} {u : Char}
    (h : matchNumUnit units s = some (n, u)) : s ≠ "" := by
  rintro rfl
  simp [matchNumUnit] at h

/-! ## Claim C6: ConfigBuilder conflict rejection -/

/-- Claim C6: the cluster config builder deterministically rejects each of the
three pairwise image-source conflicts (custom-image with image-version,
custom-image-family with image-version, custom-image with
custom-image-family) and the single-node-with-preemptible-workers conflict,
and accepts any config with at most one image source set (and without the
single-node conflict): construction succeeds if and only if none of the four
conflicts holds. -/
theorem config_builder_conflicts (p : GenParams) :
    exceptOk (clusterGeneratorInit p) = true ↔
      ¬(pyTruthyStr p.custom_image = true ∧ pyTruthyStr p.image_version = true) ∧
      ¬(pyTruthyStr p.custom_image_family = true ∧ pyTruthyStr p.image_version = true) ∧
      ¬(pyTruthyStr p.custom_image_family = true ∧ pyTruthyStr p.custom_image = true) ∧
      ¬(singleNode p = true ∧ 0 < p.num_preemptible_workers) := by
  unfold clusterGeneratorInit
  split_ifs with h1 h2 h3 h4 <;>
    simp_all [exceptOk, Bool.and_eq_true, decide_eq_true_eq]

/-- Witness for C6: a config with a single image source and preemptible
workers alongside nonzero workers is accepted. -/
theorem config_builder_conflicts_witness :
    exceptOk (clusterGeneratorInit
      { num_workers := some 2, num_preemptible_workers := 4,
        image_version := some "2.0" }) = true :=
  (config_builder_conflicts _).mpr (by decide)

/-! ## Claim C7: auto-delete-at wins over auto-delete-TTL -/

/-- Claim C7: in the built lifecycle policy, auto-delete-at wins over
auto-delete-TTL: whenever both `auto_delete_time` and `auto_delete_ttl`
parameters are present, the built config carries the auto-delete-at timestamp
and no auto-delete-TTL field; and the auto-delete-TTL field appears only when
`auto_delete_time` is absent. -/
theorem lifecycle_auto_delete_time_wins (p : GenParams) :
    (p.auto_delete_time.isSome = true ∧ p.auto_delete_ttl.isSome = true →
      (build_lifecycle_config p).auto_delete_time.isSome = true ∧
        (build_lifecycle_config p).auto_delete_ttl = none) ∧
    ((build_lifecycle_config p).auto_delete_ttl.isSome = true →
      p.auto_delete_time = none) := by
  cases hat : p.auto_delete_time <;> simp [build_lifecycle_config, hat]

/-- Witness for C7: with both parameters set the built policy keeps the
timestamp and drops the TTL. -/
theorem lifecycle_auto_delete_time_wins_witness :
    (build_lifecycle_config
        { auto_delete_time := some 1700000000, auto_delete_ttl := some 300 }
      ).auto_delete_time.isSome = true ∧
    (build_lifecycle_config
        { auto_delete_time := some 1700000000, auto_delete_ttl := some 300 }
      ).auto_delete_ttl = none :=
  (lifecycle_auto_delete_time_wins _).1 (by decide)

/-! ## Claim C9: synchronous job submission against job_error_states -/

/-- Claim C9: for a synchronous job submission with the default
`job_error_states` (none passed, hence `{ERROR}`), a job whose polling
reaches terminal state ERROR makes `execute` raise `JobExecutionError`, and a
job reaching terminal state DONE makes `execute` return the captured job id.
(The polling side, `DataprocHook.wait_for_job`, is modelled from the spec as
it is not among the sources.) -/
theorem job_submit_error_states_default (op : JobOp) (polled : List JobState)
    (ht : op.hasTemplate = true) (ha : op.asynchronous = false)
    (hd : op.job_error_states = none) :
    (polled.find? isTerminalJobState = some .ERROR →
      jobBaseExecute op polled = .error .jobExecution) ∧
    (polled.find? isTerminalJobState = some .DONE →
      jobBaseExecute op polled = .ok op.jobId) := by
  constructor <;> intro h <;>
    simp [jobBaseExecute, wait_for_job, ht, ha, hd, effectiveJobErrorStates, h]

/-- Witness for C9: a run polled RUNNING then ERROR raises, a run polled
RUNNING then DONE returns the job id. -/
theorem job_submit_error_states_default_witness :
    (jobBaseExecute {} [.RUNNING, .ERROR] = .error .jobExecution) ∧
    (jobBaseExecute {} [.RUNNING, .DONE] = .ok ({} : JobOp).jobId) :=
  ⟨(job_submit_error_states_default {} [.RUNNING, .ERROR] rfl rfl rfl).1 (by decide),
   (job_submit_error_states_default {} [.RUNNING, .DONE] rfl rfl rfl).2 (by decide)⟩

/-! ## Claim C5: duration parsing (corrected) -/

/-- Counterexample to C5 as stated: `"0s"` matches `^\d+[smdh]$` with a unit
allowed at the graceful-decommission call site, whose exact equivalent second
count is 0, yet the parser raises `DurationFormatError` there instead of
returning 0. -/
theorem duration_zero_graceful_counterexample :
    matchNumUnit ['s', 'm', 'd', 'h'] "0s" = some (0, 's') ∧
    graceful_decommission_timeout_object (some "0s") = .error .format ∧
    graceful_decommission_timeout_object (some "0s") ≠ .ok (some 0) := by
  decide

/-- Claim C5, amended: for strings matching the pattern with a unit allowed at
the call site, the init-action parser returns the exact second count
(including zero), while the graceful-decommission parser returns the exact
second count only for positive values, raising `DurationFormatError` on
zero-valued matches; non-matching strings raise `DurationFormatError` at both
sites, except that the empty (falsy) string is treated as absent by the
graceful-decommission site. -/
theorem duration_parse_amended :
    (∀ s n u, matchNumUnit ['s', 'm'] s = some (n, u) →
      get_init_action_timeout s = .ok (if u = 's' then n else 60 * n)) ∧
    (∀ s, matchNumUnit ['s', 'm'] s = none →
      get_init_action_timeout s = .error .format) ∧
    (∀ s n u, matchNumUnit ['s', 'm', 'd', 'h'] s = some (n, u) → 0 < n →
      graceful_decommission_timeout_object (some s) =
        .ok (some (if u = 's' then n else if u = 'm' then 60 * n
          else if u = 'h' then 3600 * n else 86400 * n))) ∧
    (∀ s u, matchNumUnit ['s', 'm', 'd', 'h'] s = some (0, u) →
      graceful_decommission_timeout_object (some s) = .error .format) ∧
    (∀ s, s ≠ "" → matchNumUnit ['s', 'm', 'd', 'h'] s = none →
      graceful_decommission_timeout_object (some s) = .error .format) ∧
    graceful_decommission_timeout_object none = .ok none ∧
    graceful_decommission_timeout_object (some "") = .ok none := by
  refine ⟨?_, ?_, ?_, ?_, ?_, rfl, by decide⟩
  · intro s n u h
    have hu := matchNumUnit_unit_mem h
    simp only [List.mem_cons, List.mem_singleton, List.not_mem_nil, or_false] at hu
    unfold get_init_action_timeout
    rw [h]
    rcases hu with rfl | rfl <;> simp
  · intro s h
    unfold get_init_action_timeout
    rw [h]
  · intro s n u h hn
    have hu := matchNumUnit_unit_mem h
    have hne := matchNumUnit_ne_empty h
    simp only [List.mem_cons, List.mem_singleton, List.not_mem_nil, or_false] at hu
    simp only [graceful_decommission_timeout_object]
    rw [if_neg hne, h]
    rcases hu with rfl | rfl | rfl | rfl <;> simp <;> omega
  · intro s u h
    have hu := matchNumUnit_unit_mem h
    have hne := matchNumUnit_ne_empty h
    simp only [List.mem_cons, List.mem_singleton, List.not_mem_nil, or_false] at hu
    simp only [graceful_decommission_timeout_object]
    rw [if_neg hne, h]
    rcases hu with rfl | rfl | rfl | rfl <;> simp
  · intro s hne h
    simp only [graceful_decommission_timeout_object]
    rw [if_neg hne, h]

/-- Witness for C5 (amended): the spec's worked examples, plus the zero and
non-matching cases. -/
theorem duration_parse_amended_witness :
    get_init_action_timeout "10m" = .ok 600 ∧
    graceful_decommission_timeout_object (some "1h") = .ok (some 3600) ∧
    graceful_decommission_timeout_object (some "2d") = .ok (some 172800) ∧
    get_init_action_timeout "0s" = .ok 0 ∧
    graceful_decommission_timeout_object (some "abc") = .error .format := by
  refine ⟨?_, ?_, ?_, ?_, ?_⟩
  · have h := duration_parse_amended.1 "10m" 10 'm' (by decide)
    simpa using h
  · have h := duration_parse_amended.2.2.1 "1h" 1 'h' (by decide) (by decide)
    simpa using h
  · have h := duration_parse_amended.2.2.1 "2d" 2 'd' (by decide) (by decide)
    simpa using h
  · have h := duration_parse_amended.1 "0s" 0 's' (by decide)
    simpa using h
  · exact duration_parse_amended.2.2.2.2.1 "abc" (by decide) (by decide)

/-! ## Claim C10: deferred validation of the init-action timeout -/

/-- Claim C10: validation of the init-action timeout string is deferred: with
a malformed `init_action_timeout` (not matching the pattern) the generator is
still constructed successfully, the malformed-timeout error is raised exactly
when the config is built with a truthy (non-empty) `init_actions_uris`, and
with it empty or absent the build never raises.  (The construction-time image
conflicts and the `internal_ip_only` check are independent of the timeout
string; the hypotheses keep them out of the way.) -/
theorem init_action_timeout_deferred (p : GenParams)
    (hmal : matchNumUnit ['s', 'm'] p.init_action_timeout = none)
    (hok : exceptOk (clusterGeneratorInit p) = true)
    (hip : pyTruthyBool p.internal_ip_only = true → pyTruthyStr p.subnetwork_uri = true) :
    exceptOk (clusterGeneratorInit p) = true ∧
    (pyTruthyList p.init_actions_uris = true →
      build_cluster_data p = .error .initActionTimeoutFormat) ∧
    (pyTruthyList p.init_actions_uris = false →
      exceptOk (build_cluster_data p) = true) ∧
    (build_cluster_data p = .error .initActionTimeoutFormat →
      pyTruthyList p.init_actions_uris = true) := by
  have hgce : (pyTruthyBool p.internal_ip_only && !pyTruthyStr p.subnetwork_uri) = false := by
    cases hb : pyTruthyBool p.internal_ip_only
    · simp
    · simp [hip hb]
  have htm : get_init_action_timeout p.init_action_timeout = .error .format := by
    unfold get_init_action_timeout
    rw [hmal]
  refine ⟨hok, ?_, ?_, ?_⟩
  · intro hl
    simp only [build_cluster_data, hgce, Bool.false_eq_true, if_false, hl, if_true, htm]
  · intro hl
    simp only [build_cluster_data, hgce, Bool.false_eq_true, if_false, hl, if_true, exceptOk]
  · intro hb
    by_cases hl : pyTruthyList p.init_actions_uris
    · exact hl
    · exfalso
      simp only [build_cluster_data, hgce, Bool.false_eq_true, if_false,
        eq_false_of_ne_true hl] at hb
      exact Except.noConfusion hb

/-- Witness for C10: a generator with malformed timeout `"7x"` and one init
action builds to the malformed-timeout error, and the same parameters without
init actions build successfully. -/
theorem init_action_timeout_deferred_witness :
    build_cluster_data { init_action_timeout := "7x", init_actions_uris := some ["gs://a"] } =
      .error .initActionTimeoutFormat ∧
    exceptOk (build_cluster_data { init_action_timeout := "7x" }) = true :=
  ⟨(init_action_timeout_deferred
      { init_action_timeout := "7x", init_actions_uris := some ["gs://a"] }
      (by decide) (by decide) (by decide)).2.1 (by decide),
   (init_action_timeout_deferred { init_action_timeout := "7x" }
      (by decide) (by decide) (by decide)).2.2.1 (by decide)⟩

/-! ## Polling-loop lemmas -/

lemma backoff_zero : backoff 0 = 10 := by decide

lemma backoff_mono (k : Nat) : backoff k ≤ backoff (k + 1) := by
  have h : 10 * 2 ^ k ≤ 10 * 2 ^ (k + 1) := by
    have := Nat.pow_le_pow_right (by norm_num : 1 ≤ 2) (Nat.le_succ k)
    omega
  exact min_le_min h le_rfl

lemma backoff_le (k : Nat) : backoff k ≤ 120 := min_le_right _ _

lemma backoff_ge (k : Nat) : 10 ≤ backoff k := by
  have h : (1 : Nat) ≤ 2 ^ k := Nat.one_le_two_pow
  exact le_min (by omega) (by omega)

lemma wait_deleting_loop_neg {t : Int} (k : Nat) (gets : List GetRes) (ht : t < 0) :
    wait_deleting_loop t k gets = ([], gets, .error .pollTimeout) := by
  cases gets <;> simp [wait_deleting_loop, ht]

lemma wait_creating_loop_neg {c : Cluster} {t : Int} (k : Nat) (gets : List GetRes)
    (hc : c.state = .CREATING) (ht : t < 0) :
    wait_creating_loop c t k gets = ([], gets, .error .pollTimeout) := by
  cases gets <;> simp [wait_creating_loop, hc, ht]

lemma wait_creating_loop_done {c : Cluster} (hc : c.state ≠ .CREATING)
    (t : Int) (k : Nat) (gets : List GetRes) :
    wait_creating_loop c t k gets = ([], gets, .ok c) := by
  cases gets <;> simp [wait_creating_loop, hc]

lemma wait_deleting_loop_timeout_slept :
    ∀ (gets : List GetRes) (t : Int) (k : Nat), 0 ≤ t →
      (wait_deleting_loop t k gets).2.2 = .error .pollTimeout →
      t < (sleepSum (wait_deleting_loop t k gets).1 : Int) ∧
        (sleepSum (wait_deleting_loop t k gets).1 : Int) ≤ t + 120 := by
  intro gets
  induction gets with
  | nil =>
    intro t k ht h
    rw [wait_deleting_loop, if_neg (not_lt.mpr ht)] at h
    exact absurd h (by simp)
  | cons g rest ih =>
    intro t k ht h
    rw [wait_deleting_loop, if_neg (not_lt.mpr ht)] at h ⊢
    cases hres : g.res with
    | none => rw [hres] at h; simp at h
    | some c =>
      rw [hres] at h
      dsimp only at h ⊢
      have hb := backoff_le k
      by_cases h2 : 0 ≤ t - backoff k
      · have := ih (t - backoff k) (k + 1) h2 h
        simp only [sleepSum_cons, eventSleep] at *
        push_cast at *
        omega
      · have hneg : t - backoff k < 0 := by omega
        rw [wait_deleting_loop_neg (k + 1) rest hneg] at h ⊢
        simp only [sleepSum_cons, sleepSum_nil, eventSleep]
        push_cast
        omega

lemma wait_creating_loop_timeout_slept :
    ∀ (gets : List GetRes) (c : Cluster) (t : Int) (k : Nat), 0 ≤ t →
      (wait_creating_loop c t k gets).2.2 = .error .pollTimeout →
      t < (sleepSum (wait_creating_loop c t k gets).1 : Int) ∧
        (sleepSum (wait_creating_loop c t k gets).1 : Int) ≤ t + 120 := by
  intro gets
  induction gets with
  | nil =>
    intro c t k ht h
    by_cases hc : c.state = .CREATING
    · rw [wait_creating_loop] at h
      rw [if_neg (by simpa using hc), if_neg (not_lt.mpr ht)] at h
      exact absurd h (by simp)
    · rw [wait_creating_loop, if_pos (by simpa using hc)] at h
      exact absurd h (by simp)
  | cons g rest ih =>
    intro c t k ht h
    by_cases hc : c.state = .CREATING
    · rw [wait_creating_loop] at h ⊢
      rw [if_neg (by simpa using hc), if_neg (not_lt.mpr ht)] at h ⊢
      cases hres : g.res with
      | none => rw [hres] at h; simp at h
      | some c' =>
        rw [hres] at h
        dsimp only at h ⊢
        have hb := backoff_le k
        by_cases h2 : 0 ≤ t - backoff k
        · have := ih c' (t - backoff k) (k + 1) h2 h
          simp only [sleepSum_cons, eventSleep] at *
          push_cast at *
          omega
        · have hneg : t - backoff k < 0 := by omega
          by_cases hc' : c'.state = .CREATING
          · rw [wait_creating_loop_neg (k + 1) rest hc' hneg] at h ⊢
            simp only [sleepSum_cons, sleepSum_nil, eventSleep]
            push_cast
            omega
          · rw [wait_creating_loop_done hc'] at h
            exact absurd h (by simp)
    · rw [wait_creating_loop, if_pos (by simpa using hc)] at h
      exact absurd h (by simp)

lemma wait_deleting_loop_latency_irrelevant :
    ∀ (gets gets' : List GetRes) (t : Int) (k : Nat),
      gets.map GetRes.res = gets'.map GetRes.res →
      (wait_deleting_loop t k gets).1 = (wait_deleting_loop t k gets').1 ∧
      (wait_deleting_loop t k gets).2.2 = (wait_deleting_loop t k gets').2.2 := by
  intro gets
  induction gets with
  | nil =>
    intro gets' t k h
    have : gets' = [] := by cases gets' <;> simp_all
    subst this
    exact ⟨rfl, rfl⟩
  | cons g rest ih =>
    intro gets' t k h
    cases gets' with
    | nil => simp at h
    | cons g' rest' =>
      simp only [List.map_cons, List.cons.injEq] at h
      obtain ⟨hres, hrest⟩ := h
      by_cases ht : t < 0
      · rw [wait_deleting_loop_neg k _ ht, wait_deleting_loop_neg k _ ht]
        exact ⟨rfl, rfl⟩
      · cases hr : g'.res with
        | none =>
          have hg : g.res = none := hres.trans hr
          simp [wait_deleting_loop, ht, hg, hr]
        | some c =>
          have hg : g.res = some c := hres.trans hr
          obtain ⟨h1, h2⟩ := ih rest' (t - backoff k) (k + 1) hrest
          simp [wait_deleting_loop, ht, hg, hr, h1, h2]

lemma wait_creating_loop_latency_irrelevant :
    ∀ (gets gets' : List GetRes) (c : Cluster) (t : Int) (k : Nat),
      gets.map GetRes.res = gets'.map GetRes.res →
      (wait_creating_loop c t k gets).1 = (wait_creating_loop c t k gets').1 ∧
      (wait_creating_loop c t k gets).2.2 = (wait_creating_loop c t k gets').2.2 := by
  intro gets
  induction gets with
  | nil =>
    intro gets' c t k h
    have : gets' = [] := by cases gets' <;> simp_all
    subst this
    exact ⟨rfl, rfl⟩
  | cons g rest ih =>
    intro gets' c t k h
    cases gets' with
    | nil => simp at h
    | cons g' rest' =>
      simp only [List.map_cons, List.cons.injEq] at h
      obtain ⟨hres, hrest⟩ := h
      by_cases hc : c.state = .CREATING
      · by_cases ht : t < 0
        · rw [wait_creating_loop_neg k _ hc ht, wait_creating_loop_neg k _ hc ht]
          exact ⟨rfl, rfl⟩
        · cases hr : g'.res with
          | none =>
            have hg : g.res = none := hres.trans hr
            simp [wait_creating_loop, hc, ht, hg, hr]
          | some c' =>
            have hg : g.res = some c' := hres.trans hr
            obtain ⟨h1, h2⟩ := ih rest' c' (t - backoff k) (k + 1) hrest
            simp [wait_creating_loop, hc, ht, hg, hr, h1, h2]
      · rw [wait_creating_loop_done hc, wait_creating_loop_done hc]
        exact ⟨rfl, rfl⟩

/-! ## Claim C2: polling deadline and backoff (corrected) -/

/-- Counterexample to C2 as stated: with a total timeout of 15 seconds and a
cluster that keeps being found, the wait-until-absent loop raises
`PollTimeoutError` only after having slept 30 accounted seconds — past the
configured total timeout. -/
theorem poll_deadline_overshoot_counterexample :
    (wait_deleting_loop 15 0
        [{ res := some { state := .DELETING } }, { res := some { state := .DELETING } }]
      ).2.2 = .error .pollTimeout ∧
    sleepSum (wait_deleting_loop 15 0
        [{ res := some { state := .DELETING } }, { res := some { state := .DELETING } }]
      ).1 = 30 ∧
    ¬((30 : Int) ≤ 15) := by
  decide

/-- Claim C2, amended: the polling loops begin each sleep only while the
remaining accounted budget is non-negative, so when `PollTimeoutError` is
raised the aggregate accounted sleep time exceeds the configured total
timeout by at most one final backoff interval (hence by at most 120 seconds);
the backoff intervals start at 10 seconds, are non-decreasing and are capped
at 120 seconds; and the remaining budget is decremented only by elapsed sleep
time, never by fetch latency (the loops' outputs are invariant under changes
to the latencies of the fetch results). -/
theorem poll_deadline_and_backoff_amended :
    (backoff 0 = 10) ∧
    (∀ k, backoff k ≤ backoff (k + 1)) ∧
    (∀ k, 10 ≤ backoff k ∧ backoff k ≤ 120) ∧
    (∀ (t : Int) (gets : List GetRes), 0 ≤ t →
      (wait_deleting_loop t 0 gets).2.2 = .error .pollTimeout →
      t < (sleepSum (wait_deleting_loop t 0 gets).1 : Int) ∧
        (sleepSum (wait_deleting_loop t 0 gets).1 : Int) ≤ t + 120) ∧
    (∀ (c : Cluster) (t : Int) (gets : List GetRes), 0 ≤ t →
      (wait_creating_loop c t 0 gets).2.2 = .error .pollTimeout →
      t < (sleepSum (wait_creating_loop c t 0 gets).1 : Int) ∧
        (sleepSum (wait_creating_loop c t 0 gets).1 : Int) ≤ t + 120) ∧
    (∀ (t : Int) (k : Nat) (gets gets' : List GetRes),
      gets.map GetRes.res = gets'.map GetRes.res →
      (wait_deleting_loop t k gets).1 = (wait_deleting_loop t k gets').1 ∧
      (wait_deleting_loop t k gets).2.2 = (wait_deleting_loop t k gets').2.2) ∧
    (∀ (c : Cluster) (t : Int) (k : Nat) (gets gets' : List GetRes),
      gets.map GetRes.res = gets'.map GetRes.res →
      (wait_creating_loop c t k gets).1 = (wait_creating_loop c t k gets').1 ∧
      (wait_creating_loop c t k gets).2.2 = (wait_creating_loop c t k gets').2.2) :=
  ⟨backoff_zero,
   backoff_mono,
   fun k => ⟨backoff_ge k, backoff_le k⟩,
   fun t gets ht h => wait_deleting_loop_timeout_slept gets t 0 ht h,
   fun c t gets ht h => wait_creating_loop_timeout_slept gets c t 0 ht h,
   fun t k gets gets' h => wait_deleting_loop_latency_irrelevant gets gets' t k h,
   fun c t k gets gets' h => wait_creating_loop_latency_irrelevant gets gets' c t k h⟩

/-- Witness for C2 (amended): the 15-second-budget run raises only after
overshooting to 30 accounted seconds, within the 120-second bound. -/
theorem poll_deadline_and_backoff_amended_witness :
    (15 : Int) < (sleepSum (wait_deleting_loop 15 0
        [{ res := some { state := .DELETING } }, { res := some { state := .DELETING } }]
      ).1 : Int) ∧
    (sleepSum (wait_deleting_loop 15 0
        [{ res := some { state := .DELETING } }, { res := some { state := .DELETING } }]
      ).1 : Int) ≤ 15 + 120 :=
  poll_deadline_and_backoff_amended.2.2.2.1 15
    [{ res := some { state := .DELETING } }, { res := some { state := .DELETING } }]
    (by decide) (by decide)

/-! ## Claim C3: AlreadyExists adoption -/

/-- Claim C3: when the remote create call raises AlreadyExists, the verb
propagates the error unchanged (issuing no further RPC) if `use_if_exists` is
disabled, and otherwise fetches the existing cluster and proceeds with it
(continuing exactly as it would with that cluster). -/
theorem already_exists_adoption (op : CreateOp) (st : St) (crest : List CreateRes)
    (hcr : st.creates = .alreadyExists :: crest) :
    (op.use_if_exists = false →
      execute op st =
        ([Event.xcom op.cluster_name op.region op.project_id, Event.createRPC],
          { st with creates := crest }, .error .alreadyExists)) ∧
    (∀ g grest c, op.use_if_exists = true → st.gets = g :: grest → g.res = some c →
      execute op st =
        (Event.xcom op.cluster_name op.region op.project_id :: Event.createRPC ::
            Event.getRPC :: (after_cluster op c { creates := crest, gets := grest }).1,
          (after_cluster op c { creates := crest, gets := grest }).2.1,
          (after_cluster op c { creates := crest, gets := grest }).2.2)) := by
  constructor
  · intro hu
    simp [execute, executeBody, create_cluster, hcr, hu]
  · intro g grest c hu hg hres
    simp [execute, executeBody, create_cluster, get_cluster, hcr, hu, hg, hres]

/-- Witness for C3: with adoption enabled, an AlreadyExists followed by a
fetch of a RUNNING cluster ends with that cluster adopted. -/
theorem already_exists_adoption_witness :
    execute {} { creates := [.alreadyExists], gets := [{ latency := 1, res := some { ident := 1, state := .RUNNING } }] } =
      ([Event.xcom "cluster" "region" "project", Event.createRPC, Event.getRPC],
        { creates := [], gets := [] }, .ok { ident := 1, state := .RUNNING }) := by
  have h := (already_exists_adoption {}
      { creates := [.alreadyExists],
        gets := [{ latency := 1, res := some { ident := 1, state := .RUNNING } }] }
      [] rfl).2 { latency := 1, res := some { ident := 1, state := .RUNNING } } []
      { ident := 1, state := .RUNNING } rfl rfl rfl
  simpa [after_cluster, handle_error_state] using h

/-! ## Claim C1: ERROR-state handling -/

/-- Claim C1: whenever the created or (with adoption) fetched cluster is in
ERROR state, the verb fetches the diagnostic bundle location first and then,
with `delete_on_error`, issues exactly one delete call, and without it none;
in both cases it fails with the cluster-create error, and the diagnose call
precedes any delete call. -/
theorem error_state_cleanup (op : CreateOp) (st : St) (c : Cluster)
    (h : (∃ crest, st.creates = .ok c :: crest) ∨
      (op.use_if_exists = true ∧ ∃ crest g grest, st.creates = .alreadyExists :: crest ∧
        st.gets = g :: grest ∧ g.res = some c))
    (hc : c.state = .ERROR) :
    (execute op st).2.2 = .error .clusterCreateError ∧
    (execute op st).1.count Event.deleteRPC = (if op.delete_on_error then 1 else 0) ∧
    (execute op st).1.count Event.diagnoseRPC = 1 ∧
    ∃ pre, (execute op st).1 =
        pre ++ Event.diagnoseRPC ::
          (if op.delete_on_error then [Event.deleteRPC] else []) ∧
      Event.diagnoseRPC ∉ pre ∧ Event.deleteRPC ∉ pre := by
  have hstate : c.state ≠ .CREATING ∧ c.state ≠ .DELETING := by rw [hc]; exact ⟨by simp, by simp⟩
  rcases h with ⟨crest, hcr⟩ | ⟨hu, crest, g, grest, hcr, hg, hres⟩ <;>
    cases hdel : op.delete_on_error
  · refine ⟨?_, ?_, ?_, ⟨[Event.xcom op.cluster_name op.region op.project_id, Event.createRPC], ?_, by simp, by simp⟩⟩ <;>
      simp [execute, executeBody, create_cluster, after_cluster, handle_error_state, hcr, hc, hdel, List.count_cons]
  · refine ⟨?_, ?_, ?_, ⟨[Event.xcom op.cluster_name op.region op.project_id, Event.createRPC], ?_, by simp, by simp⟩⟩ <;>
      simp [execute, executeBody, create_cluster, after_cluster, handle_error_state, hcr, hc, hdel, List.count_cons]
  · refine ⟨?_, ?_, ?_, ⟨[Event.xcom op.cluster_name op.region op.project_id, Event.createRPC, Event.getRPC], ?_, by simp, by simp⟩⟩ <;>
      simp [execute, executeBody, create_cluster, get_cluster, after_cluster, handle_error_state,
        hcr, hg, hres, hu, hc, hdel, List.count_cons]
  · refine ⟨?_, ?_, ?_, ⟨[Event.xcom op.cluster_name op.region op.project_id, Event.createRPC, Event.getRPC], ?_, by simp, by simp⟩⟩ <;>
      simp [execute, executeBody, create_cluster, get_cluster, after_cluster, handle_error_state,
        hcr, hg, hres, hu, hc, hdel, List.count_cons]

/-- Witness for C1: a create returning an ERROR cluster under the default
`delete_on_error = true` fails with the cluster-create error after exactly one
delete call. -/
theorem error_state_cleanup_witness :
    (execute {} { creates := [.ok { ident := 1, state := .ERROR }], gets := [] }).2.2 =
      .error .clusterCreateError ∧
    (execute {} { creates := [.ok { ident := 1, state := .ERROR }], gets := [] }).1.count
      Event.deleteRPC = 1 := by
  have h := error_state_cleanup {}
      { creates := [.ok { ident := 1, state := .ERROR }], gets := [] }
      { ident := 1, state := .ERROR } (Or.inl ⟨[], rfl⟩) rfl
  exact ⟨h.1, by simpa using h.2.1⟩

lemma wait_deleting_loop_ok_fetches :
    ∀ (gets : List GetRes) (t : Int) (k : Nat),
      (wait_deleting_loop t k gets).2.2 = .ok () →
      (wait_deleting_loop t k gets).1.count Event.getRPC =
        gets.findIdx (fun g => g.res.isNone) + 1 ∧
      gets.findIdx (fun g => g.res.isNone) < gets.length := by
  intro gets
  induction gets with
  | nil =>
    intro t k h
    rw [wait_deleting_loop] at h
    split_ifs at h
  | cons g rest ih =>
    intro t k h
    rw [wait_deleting_loop] at h ⊢
    by_cases ht : t < 0
    · rw [if_pos ht] at h; simp at h
    · rw [if_neg ht] at h ⊢
      cases hres : g.res with
      | none =>
        rw [hres] at h
        simp [List.findIdx_cons, hres, List.count_cons]
      | some c =>
        rw [hres] at h
        dsimp only at h ⊢
        obtain ⟨h1, h2⟩ := ih (t - backoff k) (k + 1) h
        simp [List.findIdx_cons, hres, List.count_cons, h1, h2]

/-! ## Claim C4: DELETING, wait-until-absent, then recreate -/

/-- Claim C4: when the adopted cluster is observed in DELETING state, the verb
runs the wait-until-absent loop — whose fetch is called exactly up to and
including the first NotFound, the exception that exits the loop — and then
issues a new create whose resulting cluster is returned. -/
theorem deleting_then_recreate (op : CreateOp) (st : St) (g : GetRes) (c c2 : Cluster)
    (crest : List CreateRes) (grest : List GetRes)
    (hcr : st.creates = .alreadyExists :: .ok c2 :: crest)
    (hu : op.use_if_exists = true)
    (hg : st.gets = g :: grest) (hres : g.res = some c) (hdel : c.state = .DELETING)
    (hw : (wait_deleting_loop op.timeout 0 grest).2.2 = .ok ())
    (hc2 : c2.state ≠ .ERROR) :
    (execute op st).2.2 = .ok c2 ∧
    (execute op st).1 =
      Event.xcom op.cluster_name op.region op.project_id :: Event.createRPC ::
        Event.getRPC :: ((wait_deleting_loop op.timeout 0 grest).1 ++ [Event.createRPC]) ∧
    (wait_deleting_loop op.timeout 0 grest).1.count Event.getRPC =
      grest.findIdx (fun x => x.res.isNone) + 1 ∧
    grest.findIdx (fun x => x.res.isNone) < grest.length := by
  obtain ⟨hcount, hlt⟩ := wait_deleting_loop_ok_fetches grest op.timeout 0 hw
  rcases hW : wait_deleting_loop op.timeout 0 grest with ⟨tr1, gets1, r1⟩
  rw [hW] at hw hcount
  dsimp only at hw hcount
  subst hw
  refine ⟨?_, ?_, hcount, hlt⟩ <;>
    simp [execute, executeBody, create_cluster, get_cluster, after_cluster,
      handle_error_state, wait_for_cluster_in_deleting_state, hcr, hu, hg, hres, hdel,
      hc2, hW]

/-- Witness for C4: adopting a DELETING cluster, observing NotFound on the
third fetch overall (second inside the loop), and returning the newly created
RUNNING cluster. -/
theorem deleting_then_recreate_witness :
    (execute {}
        { creates := [.alreadyExists, .ok { ident := 2, state := .RUNNING }],
          gets := [{ res := some { ident := 1, state := .DELETING } },
                   { res := some { ident := 1, state := .DELETING } },
                   { res := none }] }).2.2 = .ok { ident := 2, state := .RUNNING } ∧
    (wait_deleting_loop (3600 : Int) 0
        [{ res := some { ident := 1, state := .DELETING } }, { res := none }]
      ).1.count Event.getRPC = 2 := by
  have h := deleting_then_recreate {}
      { creates := [.alreadyExists, .ok { ident := 2, state := .RUNNING }],
        gets := [{ res := some { ident := 1, state := .DELETING } },
                 { res := some { ident := 1, state := .DELETING } },
                 { res := none }] }
      { res := some { ident := 1, state := .DELETING } }
      { ident := 1, state := .DELETING } { ident := 2, state := .RUNNING }
      [] [{ res := some { ident := 1, state := .DELETING } }, { res := none }]
      rfl rfl rfl rfl rfl (by decide) (by decide)
  refine ⟨h.1, ?_⟩
  have h2 := h.2.2.1
  simpa using h2

/-! ## Correlation-record lemmas -/

/-- No event of the trace is the correlation-record push. -/
def noXcomB (tr : List Event) : Bool :=
  tr.all fun e => !e.isXcom

@[simp] lemma noXcomB_nil : noXcomB [] = true := rfl

@[simp] lemma noXcomB_cons (e : Event) (tr : List Event) :
    noXcomB (e :: tr) = (!e.isXcom && noXcomB tr) := by
  simp [noXcomB]

@[simp] lemma noXcomB_append (a b : List Event) :
    noXcomB (a ++ b) = (noXcomB a && noXcomB b) := by
  simp [noXcomB]

lemma create_cluster_noXcomB (st : St) : noXcomB (create_cluster st).1 = true := by
  unfold create_cluster
  split <;> simp [Event.isXcom]

lemma get_cluster_noXcomB (st : St) : noXcomB (get_cluster st).1 = true := by
  unfold get_cluster
  split
  · simp [Event.isXcom]
  · split <;> simp [Event.isXcom]

lemma handle_error_state_noXcomB (op : CreateOp) (c : Cluster) (st : St) :
    noXcomB (handle_error_state op c st).1 = true := by
  unfold handle_error_state
  split_ifs <;> simp [Event.isXcom]

lemma wait_deleting_loop_noXcomB :
    ∀ (gets : List GetRes) (t : Int) (k : Nat),
      noXcomB (wait_deleting_loop t k gets).1 = true := by
  intro gets
  induction gets with
  | nil =>
    intro t k
    rw [wait_deleting_loop]
    split_ifs <;> simp [Event.isXcom]
  | cons g rest ih =>
    intro t k
    rw [wait_deleting_loop]
    split_ifs with ht
    · simp
    · cases hres : g.res with
      | none => simp [Event.isXcom]
      | some c => simp [Event.isXcom, ih (t - backoff k) (k + 1)]

lemma wait_creating_loop_noXcomB :
    ∀ (gets : List GetRes) (c : Cluster) (t : Int) (k : Nat),
      noXcomB (wait_creating_loop c t k gets).1 = true := by
  intro gets
  induction gets with
  | nil =>
    intro c t k
    rw [wait_creating_loop]
    split_ifs <;> simp [Event.isXcom]
  | cons g rest ih =>
    intro c t k
    rw [wait_creating_loop]
    split_ifs with hc ht
    · simp
    · simp
    · cases hres : g.res with
      | none => simp [Event.isXcom]
      | some c' => simp [Event.isXcom, ih c' (t - backoff k) (k + 1)]

lemma wait_for_deleting_noXcomB (op : CreateOp) (st : St) :
    noXcomB (wait_for_cluster_in_deleting_state op st).1 = true := by
  unfold wait_for_cluster_in_deleting_state
  simpa using wait_deleting_loop_noXcomB st.gets op.timeout 0

lemma wait_for_creating_noXcomB (op : CreateOp) (st : St) :
    noXcomB (wait_for_cluster_in_creating_state op st).1 = true := by
  unfold wait_for_cluster_in_creating_state
  rcases hg : get_cluster st with ⟨tr, st1, r⟩
  have H : noXcomB tr = true := by
    have h := get_cluster_noXcomB st
    rw [hg] at h
    exact h
  cases r with
  | error e => simpa using H
  | ok c => simp [H, wait_creating_loop_noXcomB st1.gets c op.timeout 0]

lemma after_cluster_noXcomB (op : CreateOp) (c : Cluster) (st : St) :
    noXcomB (after_cluster op c st).1 = true := by
  rcases h0 : handle_error_state op c st with ⟨tr0, st0, r0⟩
  have H0 : noXcomB tr0 = true := by
    have h := handle_error_state_noXcomB op c st
    rw [h0] at h
    exact h
  cases r0 with
  | error e => simp [after_cluster, h0, H0]
  | ok u =>
    cases u
    by_cases hcr : c.state = .CREATING
    · rcases h1 : wait_for_cluster_in_creating_state op st0 with ⟨tr1, st1, r1⟩
      have H1 : noXcomB tr1 = true := by
        have h := wait_for_creating_noXcomB op st0
        rw [h1] at h
        exact h
      cases r1 with
      | error e => simp [after_cluster, h0, h1, hcr, H0, H1]
      | ok c1 =>
        rcases h2 : handle_error_state op c1 st1 with ⟨tr2, st2, r2⟩
        have H2 : noXcomB tr2 = true := by
          have h := handle_error_state_noXcomB op c1 st1
          rw [h2] at h
          exact h
        cases r2 <;> simp [after_cluster, h0, h1, h2, hcr, H0, H1, H2]
    · by_cases hdl : c.state = .DELETING
      · rcases h1 : wait_for_cluster_in_deleting_state op st0 with ⟨tr1, st1, r1⟩
        have H1 : noXcomB tr1 = true := by
          have h := wait_for_deleting_noXcomB op st0
          rw [h1] at h
          exact h
        cases r1 with
        | error e => simp [after_cluster, h0, h1, hcr, hdl, H0, H1]
        | ok u1 =>
          cases u1
          rcases h2 : create_cluster st1 with ⟨tr2, st2, r2⟩
          have H2 : noXcomB tr2 = true := by
            have h := create_cluster_noXcomB st1
            rw [h2] at h
            exact h
          cases r2 with
          | error e => simp [after_cluster, h0, h1, h2, hcr, hdl, H0, H1, H2]
          | ok c2 =>
            rcases h3 : handle_error_state op c2 st2 with ⟨tr3, st3, r3⟩
            have H3 : noXcomB tr3 = true := by
              have h := handle_error_state_noXcomB op c2 st2
              rw [h3] at h
              exact h
            cases r3 <;> simp [after_cluster, h0, h1, h2, h3, hcr, hdl, H0, H1, H2, H3]
      · simp [after_cluster, h0, hcr, hdl, H0]

lemma executeBody_noXcomB (op : CreateOp) (st : St) :
    noXcomB (executeBody op st).1 = true := by
  rcases h0 : create_cluster st with ⟨tr, st1, r⟩
  have H : noXcomB tr = true := by
    have h := create_cluster_noXcomB st
    rw [h0] at h
    exact h
  cases r with
  | ok c => simp [executeBody, h0, H, after_cluster_noXcomB op c st1]
  | error e =>
    cases e <;> try simp [executeBody, h0, H]
    case alreadyExists =>
      by_cases hu : op.use_if_exists
      · rcases h1 : get_cluster st1 with ⟨trg, st2, rg⟩
        have Hg : noXcomB trg = true := by
          have h := get_cluster_noXcomB st1
          rw [h1] at h
          exact h
        cases rg with
        | ok c => simp [executeBody, h0, h1, hu, H, Hg, after_cluster_noXcomB op c st2]
        | error e2 => simp [executeBody, h0, h1, hu, H, Hg]
      · simp [executeBody, h0, hu, H]

/-! ## Claim C8: one correlation record, pushed first -/

/-- Claim C8: every create-or-adopt invocation — whatever the environment
does, and whether the verb returns or raises — records exactly one
correlation record (the XCom push of cluster name, region and project id),
and this record is the first event of the invocation, before any RPC. -/
theorem correlation_record_first_and_once (op : CreateOp) (st : St) :
    (execute op st).1.head? =
      some (Event.xcom op.cluster_name op.region op.project_id) ∧
    (execute op st).1.countP Event.isXcom = 1 := by
  refine ⟨rfl, ?_⟩
  have h := executeBody_noXcomB op st
  have hz : (executeBody op st).1.countP Event.isXcom = 0 := by
    refine List.countP_eq_zero.mpr fun e he => ?_
    have := List.all_eq_true.mp h e he
    simpa using this
  simp [execute, List.countP_cons, Event.isXcom, hz]
